import Mathlib

/-!
Verification of the clinic-management backend (models.py / app.py).

The development shallowly embeds the relevant parts of the code:

* the ORM object graph used by the derived properties in models.py
  (`Visit.total_charges`, `Visit.balance`, `TestRequest.amount`,
  `PharmacyExpense.calculate_total`, the column validators);
* the relational state touched by the routes in app.py, as a record of
  tables (`DB`), with each route modelled as a pure function
  `DB → request → Except String (DB × row)`.  An `Except.error` result
  models the route answering with an error response after
  `db.session.rollback()`: the database state is unchanged (the function
  returns no state in that case).

Money amounts (Python floats) are modelled as rationals, units and stock
(Python ints) as integers, primary keys as naturals.
-/

/-! ## Catalog rows (models.py: TestType, Medicine) -/

structure TestType where
  id : Nat
  name : String
  price : ℚ
  category : String
deriving DecidableEq

structure Medicine where
  id : Nat
  stock : ℤ
  sold_units : ℤ
  buying_price : ℚ
  selling_price : ℚ
deriving DecidableEq

/-! ## ORM object graph for the derived visit totals (models.py: Visit)

These structures model a `Visit` as loaded in memory, with its
relationships (`consultation`, direct `test_requests`, `payments`)
already resolved, exactly the data read by the `total_charges`,
`total_payments` and `balance` properties. -/

structure TestRequest where
  test_type : Option TestType
deriving DecidableEq

/-- `TestRequest.amount`: `self.test_type.price if self.test_type else 0`. -/
def TestRequest.amount (tr : TestRequest) : ℚ :=
  match tr.test_type with
  | some tt => tt.price
  | none => 0

structure Prescription where
  dispensed_units : Option ℤ
  medicine : Option Medicine
deriving DecidableEq

/-- One summand of the prescription total in `Visit.total_charges`:
`(p.dispensed_units or 0) * (p.medicine.selling_price if p.medicine else 0)`. -/
def Prescription.lineCost (p : Prescription) : ℚ :=
  ((p.dispensed_units.getD 0 : ℤ) : ℚ) *
    (match p.medicine with
     | some m => m.selling_price
     | none => 0)

structure Payment where
  amount : ℚ
deriving DecidableEq

structure Consultation where
  fee : ℚ
  test_requests : List TestRequest
  prescriptions : List Prescription
deriving DecidableEq

structure Visit where
  consultation : Option Consultation
  test_requests : List TestRequest
  payments : List Payment
deriving DecidableEq

/-- `Visit.total_charges` (models.py lines 262-278), translated clause by
clause: consultation fee (or 0), direct plus consultation test request
amounts, and the dispensed prescription cost. -/
def Visit.total_charges (v : Visit) : ℚ :=
  let consultation_total : ℚ :=
    match v.consultation with
    | some c => c.fee
    | none => 0
  let test_total : ℚ :=
    (v.test_requests.map TestRequest.amount).sum +
      (match v.consultation with
       | some c => (c.test_requests.map TestRequest.amount).sum
       | none => 0)
  let prescription_total : ℚ :=
    match v.consultation with
    | some c => (c.prescriptions.map Prescription.lineCost).sum
    | none => 0
  consultation_total + test_total + prescription_total

/-- `Visit.total_payments` (models.py lines 281-283). -/
def Visit.total_payments (v : Visit) : ℚ :=
  (v.payments.map Payment.amount).sum

/-- `Visit.balance` (models.py lines 285-287). -/
def Visit.balance (v : Visit) : ℚ :=
  v.total_charges - v.total_payments

/-- Stated from the words of the specification, for comparison with the
code: consultation fee (0 when none) plus the sum of the test-type prices
of the visit's direct test requests and of the test requests of its
consultation, plus the sum over the consultation's prescriptions of
dispensed units times the medicine's selling price. -/
def claimTotalCharges (v : Visit) : ℚ :=
  (v.consultation.map Consultation.fee).getD 0
    + ((v.test_requests ++ (v.consultation.map Consultation.test_requests).getD []).map
        (fun tr => (tr.test_type.map TestType.price).getD 0)).sum
    + (((v.consultation.map Consultation.prescriptions).getD []).map
        (fun p => ((p.dispensed_units.getD 0 : ℤ) : ℚ) *
          (p.medicine.map Medicine.selling_price).getD 0)).sum

/-- C1: for every visit, the derived `total_charges` is the consultation
fee (0 when no consultation is linked) plus the test-type prices of all
direct and consultation-attached test requests plus the dispensed
prescription costs, and `balance` is `total_charges` minus the sum of the
visit's payment amounts. -/
theorem visit_totals_match_claim (v : Visit) :
    v.total_charges = claimTotalCharges v ∧
      v.balance = v.total_charges - (v.payments.map Payment.amount).sum := by
  refine ⟨?_, rfl⟩
  have hamt : ∀ l : List TestRequest,
      (l.map TestRequest.amount).sum =
        (l.map fun tr => (tr.test_type.map TestType.price).getD 0).sum := by
    intro l
    refine congrArg List.sum (List.map_congr_left ?_)
    intro tr _
    obtain ⟨tt⟩ := tr
    cases tt <;> rfl
  have hline : ∀ l : List Prescription,
      (l.map Prescription.lineCost).sum =
        (l.map fun p => ((p.dispensed_units.getD 0 : ℤ) : ℚ) *
          (p.medicine.map Medicine.selling_price).getD 0).sum := by
    intro l
    refine congrArg List.sum (List.map_congr_left ?_)
    intro p _
    obtain ⟨du, med⟩ := p
    unfold Prescription.lineCost
    cases med <;> rfl
  unfold Visit.total_charges claimTotalCharges
  cases hc : v.consultation with
  | none =>
      simp [hamt]
  | some c =>
      simp [List.map_append, List.sum_append, hamt, hline]
      try ring

/-! ## Helpers shared by the validators and routes -/

/-- `true` exactly when the `Except` value is an error (the route answered
with an error response and rolled back). -/
def isErr {α : Type} (e : Except String α) : Bool :=
  match e with
  | .error _ => true
  | .ok _ => false

/-- Database state after a route call: the new state on success, the
original state on error (`db.session.rollback()`). -/
def stateAfter {σ α : Type} (r : Except String (σ × α)) (db : σ) : σ :=
  match r with
  | .ok (db2, _) => db2
  | .error _ => db

/-! ## Patient.validate_dob (models.py lines 204-216, for C8)

Python `datetime.date` values compare lexicographically on
(year, month, day); `PyDate` models them that way. -/

structure PyDate where
  year : ℤ
  month : ℕ
  day : ℕ
deriving DecidableEq

/-- Strict comparison of dates, as Python compares `date` objects. -/
def PyDate.before (a b : PyDate) : Bool :=
  a.year < b.year ||
    (a.year == b.year &&
      (a.month < b.month || (a.month == b.month && a.day < b.day)))

/-- `Patient.validate_dob`: rejects `dob >= today` and
`dob < date(1900, 1, 1)`, accepts anything else. -/
def validate_dob (today dob : PyDate) : Except String PyDate :=
  if !(PyDate.before dob today) then
    .error "Date of birth must be in the past."
  else if PyDate.before dob ⟨1900, 1, 1⟩ then
    .error "Date of birth is too far in the past."
  else
    .ok dob

/-- C8: `validate_dob` raises exactly when the date of birth is today or
later, or earlier than the year 1900 (for a well-formed calendar date,
whose month and day are at least 1). -/
theorem validate_dob_spec (today dob : PyDate)
    (hm : 1 ≤ dob.month) (hd : 1 ≤ dob.day) :
    isErr (validate_dob today dob) = true ↔
      (PyDate.before dob today = false ∨ dob.year < 1900) := by
  have h1900 : PyDate.before dob ⟨1900, 1, 1⟩ = true ↔ dob.year < 1900 := by
    unfold PyDate.before
    simp only [Bool.or_eq_true, Bool.and_eq_true, decide_eq_true_eq, beq_iff_eq]
    constructor
    · rintro (h | ⟨-, h | ⟨-, h⟩⟩)
      · exact h
      · omega
      · omega
    · exact fun h => Or.inl h
  unfold validate_dob
  by_cases hb : PyDate.before dob today
  · simp [hb]
    by_cases h9 : PyDate.before dob ⟨1900, 1, 1⟩
    · simp [h9, isErr, h1900.mp h9]
    · simp [h9, isErr]
      rcases lt_or_ge dob.year 1900 with h | h
      · exact absurd (h1900.mpr h) h9
      · exact h
  · simp [Bool.not_eq_true] at hb
    simp [hb, isErr]

/-- Witness for C8: a dob of 1899-12-31 is rejected for a today of
2026-10-12 (its year is before 1900). -/
theorem validate_dob_spec_witness :
    isErr (validate_dob ⟨2026, 10, 12⟩ ⟨1899, 12, 31⟩) = true ↔
      (PyDate.before ⟨1899, 12, 31⟩ ⟨2026, 10, 12⟩ = false ∨ (1899 : ℤ) < 1900) :=
  validate_dob_spec ⟨2026, 10, 12⟩ ⟨1899, 12, 31⟩ (by decide) (by decide)

/-! ## Users and TestRequest.validate_technician_id (models.py 557-567, for C5) -/

structure UserRec where
  id : Nat
  role : String
deriving DecidableEq

/-- `TestRequest.validate_technician_id`, with the looked-up technician
(`User.query.get(technician_id)`) and the `test_type` relationship passed
in.  When the technician does not exist and a category check fires,
Python raises an `AttributeError` on `technician.role`; either way the
assignment fails. -/
def validate_technician_id (test_type : Option TestType)
    (technician : Option UserRec) (technician_id : Nat) : Except String Nat :=
  match test_type with
  | none => .ok technician_id
  | some tt =>
    if tt.category == "lab" then
      match technician with
      | none => .error "AttributeError: NoneType has no attribute role"
      | some u =>
        if u.role != "lab_tech" then
          .error "Lab tests must be assigned to a lab technician"
        else
          .ok technician_id
    else if tt.category == "imaging" then
      match technician with
      | none => .error "AttributeError: NoneType has no attribute role"
      | some u =>
        if u.role != "imaging_tech" then
          .error "Imaging tests must be assigned to an imaging technician"
        else
          .ok technician_id
    else
      .ok technician_id

/-- The technician role the specification requires for each test
category: `lab_tech` for lab tests, `imaging_tech` for imaging tests. -/
def requiredTechRole (category : String) : String :=
  if category == "lab" then "lab_tech" else "imaging_tech"

/-- C5: for a test request whose test type has category `lab` or
`imaging`, assigning an existing user as technician succeeds exactly when
the user's role is the matching technician role (`lab_tech` for lab,
`imaging_tech` for imaging); any other role is rejected with a
validation error. -/
theorem validate_technician_id_spec (tt : TestType) (u : UserRec) (tid : Nat)
    (hcat : tt.category = "lab" ∨ tt.category = "imaging") :
    validate_technician_id (some tt) (some u) tid = .ok tid ↔
      u.role = requiredTechRole tt.category := by
  rcases hcat with h | h
  · by_cases hr : u.role = "lab_tech" <;>
      simp [validate_technician_id, requiredTechRole, h, hr]
  · by_cases hr : u.role = "imaging_tech" <;>
      simp [validate_technician_id, requiredTechRole, h, hr]

/-- Witness for C5: a lab test type accepts a user exactly when their
role is `lab_tech`; instantiated with a nurse, both sides are false. -/
theorem validate_technician_id_spec_witness :
    validate_technician_id (some ⟨3, "CBC", 500, "lab"⟩) (some ⟨7, "nurse"⟩) 7 = .ok 7 ↔
      ("nurse" : String) = requiredTechRole "lab" :=
  validate_technician_id_spec ⟨3, "CBC", 500, "lab"⟩ ⟨7, "nurse"⟩ 7 (Or.inl rfl)

/-! ## PharmacyExpense.calculate_total (models.py lines 812-825, for C6) -/

/-- Round a rational to the nearest integer, ties to even, as Python's
built-in `round` does. -/
def roundHalfEven (x : ℚ) : ℤ :=
  let f : ℤ := ⌊x⌋
  let r : ℚ := x - f
  if r < 1 / 2 then f
  else if r > 1 / 2 then f + 1
  else if f % 2 = 0 then f else f + 1

/-- Python's `round(x, 2)`: round to two decimal places, ties to even. -/
def pyRound2 (x : ℚ) : ℚ :=
  (roundHalfEven (x * 100) : ℚ) / 100

/-- `PharmacyExpense.calculate_total`: `buying_price * quantity_added`,
minus the discount when it is positive, clamped at 0 and rounded to two
decimal places; 0 when the medicine is missing or the quantity is falsy. -/
def calculate_total (medicine : Option Medicine) (quantity_added : ℤ)
    (discount : ℚ) : ℚ :=
  match medicine with
  | some m =>
    if quantity_added ≠ 0 then
      let total : ℚ := m.buying_price * quantity_added
      let total : ℚ := if discount > 0 then total - discount else total
      pyRound2 (max total 0)
    else 0
  | none => 0

/-- A concrete medicine for counterexamples and witnesses. -/
def medEx : Medicine :=
  { id := 1, stock := 0, sold_units := 0, buying_price := 10, selling_price := 12 }

/-- Counterexample to C6 as stated: with buying price 10, quantity 1 and
discount 20, `calculate_total` yields 0 (the code clamps negative totals
at 0), not `quantity × buying_price − discount = −10`. -/
theorem calculate_total_counterexample :
    calculate_total (some medEx) 1 20 = 0 ∧
      medEx.buying_price * (1 : ℤ) - 20 = (-10 : ℚ) ∧ (0 : ℚ) ≠ -10 := by
  refine ⟨?_, by norm_num [medEx], by norm_num⟩
  norm_num [calculate_total, medEx, pyRound2, roundHalfEven]

/-- C6 (amended): for every medicine, positive quantity and non-negative
discount, `calculate_total` equals `quantity_added × buying_price minus
the discount`, clamped below at 0 and rounded half-even to two decimal
places. -/
theorem calculate_total_spec (m : Medicine) (q : ℤ) (d : ℚ)
    (hq : 0 < q) (hd : 0 ≤ d) :
    calculate_total (some m) q d = pyRound2 (max (m.buying_price * q - d) 0) := by
  unfold calculate_total
  have hq0 : q ≠ 0 := by omega
  simp only [hq0, if_true, ne_eq, not_false_eq_true, if_pos]
  rcases lt_or_eq_of_le hd with h | h
  · simp [h]
  · simp [← h]

/-- Witness for C6 (amended): buying price 10, quantity 1, discount 20
gives `max(10 − 20, 0) = 0` rounded, i.e. 0. -/
theorem calculate_total_spec_witness :
    calculate_total (some medEx) 1 20 =
      pyRound2 (max (medEx.buying_price * 1 - 20) 0) :=
  calculate_total_spec medEx 1 20 (by norm_num) (by norm_num)

/-! ## Table rows for the route-level state (app.py) -/

structure VisitRow where
  id : Nat
  patient_id : Nat
  triage_id : Option Nat
  consultation_id : Option Nat
  stage : String
deriving DecidableEq

structure TriageRow where
  id : Nat
  patient_id : Nat
  nurse_id : Nat
  temperature : ℚ
  weight : ℚ
  height : ℚ
  blood_pressure : String
  pulse_rate : Option ℤ
  notes : Option String
deriving DecidableEq

structure TestRequestRow where
  id : Nat
  consultation_id : Option Nat
  visit_id : Option Nat
  technician_id : Option Nat
  test_type_id : Nat
  status : String
deriving DecidableEq

structure PrescriptionRow where
  id : Nat
  consultation_id : Nat
  pharmacist_id : Option Nat
  medicine_id : Nat
  dosage : String
  instructions : Option String
  status : String
  dispensed_units : Option ℤ
deriving DecidableEq

structure PaymentRow where
  id : Nat
  visit_id : Option Nat
  otc_sale_id : Option Nat
  amount : ℚ
  service_type : String
  payment_method : String
  mpesa_receipt : Option String
  receptionist_id : Nat
deriving DecidableEq

structure PharmacySaleRow where
  id : Nat
  otc_sale_id : Nat
  pharmacist_id : Nat
  medicine_id : Nat
  dispensed_units : ℤ
deriving DecidableEq

structure PharmacyExpenseRow where
  id : Nat
  medicine_id : Nat
  quantity_added : ℤ
  discount : ℚ
  total_cost : ℚ
deriving DecidableEq

/-- The database state the modelled routes read and write.  The
`next_*_id` fields model the autoincrement primary keys assigned at
flush time. -/
structure DB where
  users : List UserRec
  test_types : List TestType
  medicines : List Medicine
  visits : List VisitRow
  triage_records : List TriageRow
  test_requests : List TestRequestRow
  prescriptions : List PrescriptionRow
  payments : List PaymentRow
  pharmacy_sales : List PharmacySaleRow
  pharmacy_expenses : List PharmacyExpenseRow
  next_triage_id : Nat
  next_prescription_id : Nat
  next_payment_id : Nat
  next_sale_id : Nat
  next_expense_id : Nat
deriving DecidableEq

def findUser (db : DB) (uid : Nat) : Option UserRec :=
  db.users.find? (fun u => u.id == uid)

def findMedicine (db : DB) (mid : Nat) : Option Medicine :=
  db.medicines.find? (fun m => m.id == mid)

def findVisit (db : DB) (vid : Nat) : Option VisitRow :=
  db.visits.find? (fun v => v.id == vid)

def findTriage (db : DB) (tid : Nat) : Option TriageRow :=
  db.triage_records.find? (fun t => t.id == tid)

def findTestRequest (db : DB) (tid : Nat) : Option TestRequestRow :=
  db.test_requests.find? (fun t => t.id == tid)

def findTestType (db : DB) (tid : Nat) : Option TestType :=
  db.test_types.find? (fun t => t.id == tid)

def findPrescription (db : DB) (pid : Nat) : Option PrescriptionRow :=
  db.prescriptions.find? (fun p => p.id == pid)

def findPayment (db : DB) (pid : Nat) : Option PaymentRow :=
  db.payments.find? (fun p => p.id == pid)

def findSale (db : DB) (sid : Nat) : Option PharmacySaleRow :=
  db.pharmacy_sales.find? (fun s => s.id == sid)

/-- Mutating the row of a loaded medicine in the session: every row with
the id is updated in place. -/
def updateMedicine (db : DB) (mid : Nat) (f : Medicine → Medicine) : DB :=
  { db with medicines := db.medicines.map (fun m => if m.id == mid then f m else m) }

def updateVisit (db : DB) (vid : Nat) (f : VisitRow → VisitRow) : DB :=
  { db with visits := db.visits.map (fun v => if v.id == vid then f v else v) }

def updatePrescriptionRow (db : DB) (pid : Nat) (p : PrescriptionRow) : DB :=
  { db with prescriptions := db.prescriptions.map (fun q => if q.id == pid then p else q) }

def updatePaymentRow (db : DB) (pid : Nat) (p : PaymentRow) : DB :=
  { db with payments := db.payments.map (fun q => if q.id == pid then p else q) }

def updateSaleRow (db : DB) (sid : Nat) (s : PharmacySaleRow) : DB :=
  { db with pharmacy_sales := db.pharmacy_sales.map (fun q => if q.id == sid then s else q) }

/-- Finding by id after an id-preserving in-place update: the lookup
returns the updated row. -/
theorem find_map_update {α : Type} (idOf : α → Nat) (l : List α) (k : Nat)
    (f : α → α) (hf : ∀ x, idOf (f x) = idOf x) :
    (l.map fun x => if idOf x == k then f x else x).find? (fun x => idOf x == k) =
      (l.find? (fun x => idOf x == k)).map f := by
  induction l with
  | nil => rfl
  | cons a t ih =>
    by_cases h : idOf a == k
    · simp [List.find?, h, hf]
    · simp only [List.map_cons, List.find?]
      rw [if_neg (by simpa using h)]
      simp only [h, Bool.false_eq_true, if_false] at *
      simpa [h] using ih

/-- Finding by id in an appended list when the first part has no match. -/
theorem find_append_of_none {α : Type} (p : α → Bool) (l1 l2 : List α)
    (h : l1.find? p = none) : (l1 ++ l2).find? p = l2.find? p := by
  induction l1 with
  | nil => rfl
  | cons a t ih =>
    simp only [List.find?] at h ⊢
    cases hp : p a with
    | true => simp [hp] at h
    | false =>
      simp only [hp] at h ⊢
      exact ih h

/-- Finding by id after filtering that id out returns nothing. -/
theorem find_filter_ne {α : Type} (idOf : α → Nat) (l : List α) (k : Nat) :
    (l.filter fun x => idOf x != k).find? (fun x => idOf x == k) = none := by
  rw [List.find?_eq_none]
  intro x hx
  have := List.of_mem_filter hx
  simpa using this

/-! ## Column validators fired on assignment (models.py) -/

/-- `Prescription.validate_status`. -/
def prescriptionStatusValid (s : String) : Bool :=
  s == "pending" || s == "dispensed"

/-- `Prescription.validate_pharmacist`: a non-null pharmacist id must
belong to an existing user with role `pharmacist`. -/
def validate_pharmacist (db : DB) (pid : Option Nat) : Except String (Option Nat) :=
  match pid with
  | none => .ok none
  | some p =>
    match findUser db p with
    | none => .error "Pharmacist ID does not exist"
    | some u =>
      if u.role != "pharmacist" then .error "User must have the role pharmacist"
      else .ok (some p)

/-- `Payment.validate_receptionist_id`. -/
def validate_receptionist_id (db : DB) (rid : Nat) : Except String Nat :=
  match findUser db rid with
  | none => .error "Receptionist not found"
  | some u =>
    if u.role != "receptionist" then .error "User must have the role receptionist"
    else .ok rid

/-- `Payment.validate_amount`. -/
def validate_amount (a : ℚ) : Except String ℚ :=
  if a ≤ 0 then .error "Amount must be greater than 0" else .ok a

/-- `Payment.validate_payment_method`. -/
def validate_payment_method (m : String) : Except String String :=
  if m == "cash" || m == "mpesa" then .ok m
  else .error "Payment method must be cash or mpesa"

/-! ## Prescription routes (app.py lines 1045-1144, for C2 and C4) -/

/-- JSON body of `POST /prescriptions`; `none` models an absent key. -/
structure PrescriptionPostReq where
  consultation_id : Option Nat
  pharmacist_id : Option Nat
  medicine_id : Option Nat
  dosage : Option String
  instructions : Option String
  status : Option String
  dispensed_units : Option ℤ
deriving DecidableEq

/-- `Prescriptions.post`: requires `consultation_id`, `medicine_id` and
`dosage`; looks up the medicine; builds the row (firing the status and
pharmacist validators); when `dispensed_units > 0` decrements the
medicine's stock and increments its `sold_units` — with no check against
the available stock. -/
def prescriptions_post (db : DB) (req : PrescriptionPostReq) :
    Except String (DB × PrescriptionRow) :=
  match req.consultation_id, req.medicine_id, req.dosage with
  | some cid, some mid, some dosage =>
    match findMedicine db mid with
    | none => .error "Medicine not found"
    | some _ =>
      let dispensed_units : ℤ := req.dispensed_units.getD 0
      let status := req.status.getD "pending"
      if !(prescriptionStatusValid status) then
        .error "Invalid prescription status"
      else
        match validate_pharmacist db req.pharmacist_id with
        | .error e => .error e
        | .ok pharm =>
          let prescription : PrescriptionRow :=
            { id := db.next_prescription_id, consultation_id := cid,
              pharmacist_id := pharm, medicine_id := mid, dosage := dosage,
              instructions := req.instructions, status := status,
              dispensed_units := some dispensed_units }
          let db1 :=
            if 0 < dispensed_units then
              updateMedicine db mid (fun m =>
                { m with stock := m.stock - dispensed_units,
                         sold_units := m.sold_units + dispensed_units })
            else db
          let db2 : DB :=
            { db1 with
              prescriptions := db1.prescriptions ++ [prescription],
              next_prescription_id := db1.next_prescription_id + 1 }
          .ok (db2, prescription)
  | _, _, _ => .error "required field missing"

/-- JSON body of `PATCH /prescriptions/<id>`.  The route copies every key
of the body onto the row with `setattr`; this model covers the bodies
that do not change `medicine_id` (claim C4 keeps the medicine fixed). -/
structure PrescriptionPatchReq where
  pharmacist_id : Option Nat
  dosage : Option String
  instructions : Option String
  status : Option String
  dispensed_units : Option ℤ
deriving DecidableEq

/-- `PrescriptionByID.patch`: applies the body to the row (firing the
pharmacist and status validators), and when `dispensed_units` changed
adjusts the medicine's stock and `sold_units` by the difference — again
with no check against the available stock. -/
def prescriptionByID_patch (db : DB) (pid : Nat) (req : PrescriptionPatchReq) :
    Except String (DB × PrescriptionRow) :=
  match findPrescription db pid with
  | none => .error "Prescription not found"
  | some prescription =>
    let old_dispensed : ℤ := prescription.dispensed_units.getD 0
    let new_dispensed : ℤ := req.dispensed_units.getD old_dispensed
    match validate_pharmacist db (req.pharmacist_id.or prescription.pharmacist_id) with
    | .error e => .error e
    | .ok pharm =>
      let status := req.status.getD prescription.status
      if !(prescriptionStatusValid status) then
        .error "Invalid prescription status"
      else
        let updated : PrescriptionRow :=
          { prescription with
            pharmacist_id := pharm,
            dosage := req.dosage.getD prescription.dosage,
            instructions := req.instructions.or prescription.instructions,
            status := status,
            dispensed_units :=
              match req.dispensed_units with
              | some d => some d
              | none => prescription.dispensed_units }
        if new_dispensed != old_dispensed then
          match findMedicine db prescription.medicine_id with
          | none => .error "AttributeError: NoneType has no attribute stock"
          | some _ =>
            let diff := new_dispensed - old_dispensed
            let db1 := updateMedicine db prescription.medicine_id (fun m =>
              { m with stock := m.stock - diff, sold_units := m.sold_units + diff })
            .ok (updatePrescriptionRow db1 pid updated, updated)
        else
          .ok (updatePrescriptionRow db pid updated, updated)

/-- `PrescriptionByID.delete`: when the row's `dispensed_units` is truthy
restores the medicine's stock and decrements its `sold_units`, then
removes the row. -/
def prescriptionByID_delete (db : DB) (pid : Nat) :
    Except String (DB × PrescriptionRow) :=
  match findPrescription db pid with
  | none => .error "Prescription not found"
  | some prescription =>
    let db1 :=
      match prescription.dispensed_units with
      | some d =>
        if d != 0 then
          updateMedicine db prescription.medicine_id (fun m =>
            { m with stock := m.stock + d, sold_units := m.sold_units - d })
        else db
      | none => db
    let db2 : DB :=
      { db1 with prescriptions := db1.prescriptions.filter (fun p => p.id != pid) }
    .ok (db2, prescription)

/-! ## Payment routes (app.py lines 1153-1222, for C3) -/

/-- Python truthiness of `data.get(key)` for an id field: present and
non-zero. -/
def truthyId (o : Option Nat) : Bool :=
  match o with
  | some v => v != 0
  | none => false

/-- JSON body of `POST /payments`. -/
structure PaymentPostReq where
  visit_id : Option Nat
  otc_sale_id : Option Nat
  receptionist_id : Option Nat
  amount : Option ℚ
  service_type : Option String
  payment_method : Option String
  mpesa_receipt : Option String
deriving DecidableEq

/-- `Payments.post`: rejects a body with neither or both of
`visit_id`/`otc_sale_id` (by truthiness), requires the other fields, and
builds the row, firing the amount, payment-method and receptionist
validators. -/
def payments_post (db : DB) (req : PaymentPostReq) :
    Except String (DB × PaymentRow) :=
  if !(truthyId req.visit_id) && !(truthyId req.otc_sale_id) then
    .error "Either visit_id or otc_sale_id is required"
  else if truthyId req.visit_id && truthyId req.otc_sale_id then
    .error "Provide only one of visit_id or otc_sale_id, not both"
  else
    match req.receptionist_id, req.amount, req.service_type, req.payment_method with
    | some rid, some amount, some st, some pm =>
      match validate_amount amount with
      | .error e => .error e
      | .ok _ =>
        match validate_payment_method pm with
        | .error e => .error e
        | .ok _ =>
          match validate_receptionist_id db rid with
          | .error e => .error e
          | .ok _ =>
            let payment : PaymentRow :=
              { id := db.next_payment_id, visit_id := req.visit_id,
                otc_sale_id := req.otc_sale_id, amount := amount,
                service_type := st, payment_method := pm,
                mpesa_receipt := req.mpesa_receipt, receptionist_id := rid }
            let db2 : DB :=
              { db with payments := db.payments ++ [payment],
                        next_payment_id := db.next_payment_id + 1 }
            .ok (db2, payment)
    | _, _, _, _ => .error "required field missing"

/-- JSON body of `PATCH /payments/<id>`: the outer `Option` marks the key
as present in the body, the inner one the (nullable) value. -/
structure PaymentPatchReq where
  visit_id : Option (Option Nat)
  otc_sale_id : Option (Option Nat)
  amount : Option ℚ
  service_type : Option String
  payment_method : Option String
  mpesa_receipt : Option (Option String)
  receptionist_id : Option Nat
deriving DecidableEq

/-- `PaymentByID.patch`: copies every key of the body onto the row with
`setattr`.  Only the amount, payment-method and receptionist validators
fire; `visit_id` and `otc_sale_id` are written unchecked. -/
def paymentByID_patch (db : DB) (pid : Nat) (req : PaymentPatchReq) :
    Except String (DB × PaymentRow) :=
  match findPayment db pid with
  | none => .error "Payment not found"
  | some payment =>
    match (match req.amount with
           | some a => validate_amount a
           | none => .ok payment.amount) with
    | .error e => .error e
    | .ok _ =>
      match (match req.payment_method with
             | some m => validate_payment_method m
             | none => .ok payment.payment_method) with
      | .error e => .error e
      | .ok _ =>
        match (match req.receptionist_id with
               | some r => validate_receptionist_id db r
               | none => .ok payment.receptionist_id) with
        | .error e => .error e
        | .ok _ =>
          let updated : PaymentRow :=
            { payment with
              visit_id := req.visit_id.getD payment.visit_id,
              otc_sale_id := req.otc_sale_id.getD payment.otc_sale_id,
              amount := req.amount.getD payment.amount,
              service_type := req.service_type.getD payment.service_type,
              payment_method := req.payment_method.getD payment.payment_method,
              mpesa_receipt := req.mpesa_receipt.getD payment.mpesa_receipt,
              receptionist_id := req.receptionist_id.getD payment.receptionist_id }
          .ok (updatePaymentRow db pid updated, updated)

/-! ## Pharmacy sale routes (app.py lines 1291-1400, for C2 and C9) -/

/-- The attributes of `PharmacySale` that can be assigned: its columns
and relationships.  `total_price` is a read-only `@property` with no
setter, so assigning it raises. -/
def pharmacySaleSettableAttr (k : String) : Bool :=
  k == "id" || k == "otc_sale_id" || k == "pharmacist_id" ||
    k == "medicine_id" || k == "dispensed_units" || k == "created_at" ||
    k == "otc_sale" || k == "pharmacist" || k == "medicine"

/-- JSON body of `POST /pharmacy_sales`. -/
structure PharmacySalePostReq where
  otc_sale_id : Option Nat
  pharmacist_id : Option Nat
  medicine_id : Option Nat
  dispensed_units : Option ℤ
  total_price : Option ℚ
deriving DecidableEq

/-- `PharmacySales.post`: requires all five fields (including
`total_price`), checks the medicine, positivity and stock, decrements
stock in the session — and then calls
`PharmacySale(..., total_price=...)`.  The default constructor assigns
each keyword, and assigning the read-only `total_price` property raises,
so the exception handler rolls everything back. -/
def pharmacySales_post (db : DB) (req : PharmacySalePostReq) :
    Except String (DB × PharmacySaleRow) :=
  match req.otc_sale_id, req.pharmacist_id, req.medicine_id,
        req.dispensed_units, req.total_price with
  | some oid, some phid, some mid, some du, some _ =>
    match findMedicine db mid with
    | none => .error "Medicine not found"
    | some medicine =>
      if du ≤ 0 then .error "Dispensed units must be greater than 0"
      else if medicine.stock < du then .error "Not enough stock available"
      else
        let db1 := updateMedicine db mid (fun m =>
          { m with stock := m.stock - du, sold_units := m.sold_units + du })
        -- the keyword arguments passed to the PharmacySale constructor
        if ["otc_sale_id", "pharmacist_id", "medicine_id", "dispensed_units",
            "total_price"].all pharmacySaleSettableAttr then
          let sale : PharmacySaleRow :=
            { id := db1.next_sale_id, otc_sale_id := oid, pharmacist_id := phid,
              medicine_id := mid, dispensed_units := du }
          let db2 : DB :=
            { db1 with pharmacy_sales := db1.pharmacy_sales ++ [sale],
                       next_sale_id := db1.next_sale_id + 1 }
          .ok (db2, sale)
        else
          .error "AttributeError: cannot set attribute total_price"
  | _, _, _, _, _ => .error "required field missing"

/-- JSON body of `PATCH /pharmacy_sales/<id>`. -/
structure PharmacySalePatchReq where
  dispensed_units : Option ℤ
  total_price : Option ℚ
  pharmacist_id : Option Nat
  medicine_id : Option Nat
deriving DecidableEq

/-- The `dispensed_units` step of `PharmacySaleByID.patch`: when the
units changed, a positive difference is checked against the stock and
the medicine is adjusted by the difference. -/
def salePatchUnits (db : DB) (sale : PharmacySaleRow) (new_units : ℤ) :
    Except String (DB × PharmacySaleRow) :=
  if new_units != sale.dispensed_units then
    match findMedicine db sale.medicine_id with
    | none => .error "AttributeError: NoneType has no attribute stock"
    | some med =>
      let diff := new_units - sale.dispensed_units
      if 0 < diff ∧ med.stock < diff then
        .error "Not enough stock available"
      else
        .ok (updateMedicine db sale.medicine_id (fun m =>
              { m with stock := m.stock - diff,
                       sold_units := m.sold_units + diff }),
             { sale with dispensed_units := new_units })
  else
    .ok (db, sale)

/-- `PharmacySaleByID.patch`: when `dispensed_units` changed, checks the
stock for a positive difference and adjusts the medicine; a
`total_price` key raises on the read-only property (rolling back);
`pharmacist_id` and `medicine_id` are updated with a medicine-existence
check. -/
def pharmacySaleByID_patch (db : DB) (sid : Nat) (req : PharmacySalePatchReq) :
    Except String (DB × PharmacySaleRow) :=
  match findSale db sid with
  | none => .error "Pharmacy sale not found"
  | some sale =>
    match salePatchUnits db sale (req.dispensed_units.getD sale.dispensed_units) with
    | .error e => .error e
    | .ok (db1, sale1) =>
      match req.total_price with
      | some _ =>
        -- sale.total_price = float(...) assigns the read-only property
        if pharmacySaleSettableAttr "total_price" then
          .ok (updateSaleRow db1 sid sale1, sale1)
        else
          .error "AttributeError: cannot set attribute total_price"
      | none =>
        let sale2 : PharmacySaleRow :=
          { sale1 with pharmacist_id := req.pharmacist_id.getD sale1.pharmacist_id }
        match req.medicine_id with
        | some mid2 =>
          match findMedicine db1 mid2 with
          | none => .error "Medicine not found"
          | some med2 =>
            let sale3 : PharmacySaleRow := { sale2 with medicine_id := med2.id }
            .ok (updateSaleRow db1 sid sale3, sale3)
        | none =>
          .ok (updateSaleRow db1 sid sale2, sale2)

/-! ## Pharmacy expense route (app.py lines 1413-1456, for C10) -/

/-- The parameters `PharmacyExpense.__init__` accepts (besides `self`):
`medicine`, `quantity_added` and `discount`. -/
def pharmacyExpenseAcceptedParam (k : String) : Bool :=
  k == "medicine" || k == "quantity_added" || k == "discount"

/-- `PharmacyExpense.__init__(medicine, quantity_added, discount=0.0)`:
the assignments fire the quantity and discount validators, then
`total_cost` is computed by `calculate_total`. -/
def pharmacyExpense_init (medicine : Medicine) (quantity_added : ℤ)
    (discount : ℚ) : Except String PharmacyExpenseRow :=
  if quantity_added ≤ 0 then .error "Quantity added must be greater than 0"
  else if discount < 0 then .error "Discount must be positive"
  else
    .ok { id := 0, medicine_id := medicine.id, quantity_added := quantity_added,
          discount := discount,
          total_cost := calculate_total (some medicine) quantity_added discount }

/-- JSON body of `POST /pharmacy_expenses`. -/
structure PharmacyExpensePostReq where
  medicine_id : Option Nat
  quantity_added : Option ℤ
  total_cost : Option ℚ
deriving DecidableEq

/-- `PharmacyExpenses.post`: requires `medicine_id`, `quantity_added` and
`total_cost`, checks them — and then calls
`PharmacyExpense(medicine=..., quantity_added=..., total_cost=...)`.
`total_cost` is not a parameter of `PharmacyExpense.__init__`, so Python
raises `TypeError` before the body runs; the stock update below the call
is never reached and the handler rolls back. -/
def pharmacyExpenses_post (db : DB) (req : PharmacyExpensePostReq) :
    Except String (DB × PharmacyExpenseRow) :=
  match req.medicine_id, req.quantity_added, req.total_cost with
  | some mid, some quantity, some total_cost =>
    match findMedicine db mid with
    | none => .error "Medicine not found"
    | some medicine =>
      if quantity ≤ 0 then .error "Quantity added must be greater than 0"
      else if total_cost < 0 then .error "Total cost must be non-negative"
      else
        -- the keyword arguments passed to PharmacyExpense.__init__
        if ["medicine", "quantity_added", "total_cost"].all
            pharmacyExpenseAcceptedParam then
          match pharmacyExpense_init medicine quantity 0 with
          | .error e => .error e
          | .ok expense =>
            let expense1 : PharmacyExpenseRow := { expense with id := db.next_expense_id }
            let db1 := updateMedicine db mid (fun m =>
              { m with stock := m.stock + quantity })
            let db2 : DB :=
              { db1 with pharmacy_expenses := db1.pharmacy_expenses ++ [expense1],
                         next_expense_id := db1.next_expense_id + 1 }
            .ok (db2, expense1)
        else
          .error "TypeError: unexpected keyword argument total_cost"
  | _, _, _ => .error "required field missing"

/-! ## Triage route (app.py lines 604-648, for C7) -/

/-- The slash character, for the blood-pressure pattern. -/
def slashChar : Char := '/'

/-- The blood-pressure pattern of `TriageRecord.validate_blood_pressure`:
one to three digits, a slash, one to three digits. -/
def isBloodPressureFormat (s : String) : Bool :=
  match s.toList.splitOn slashChar with
  | [a, b] =>
    decide (1 ≤ a.length) && decide (a.length ≤ 3) && a.all Char.isDigit &&
      decide (1 ≤ b.length) && decide (b.length ≤ 3) && b.all Char.isDigit
  | _ => false

/-- JSON body of `POST /triage_records`. -/
structure TriagePostReq where
  patient_id : Option Nat
  nurse_id : Option Nat
  temperature : Option ℚ
  weight : Option ℚ
  height : Option ℚ
  blood_pressure : Option String
  visit_id : Option Nat
  pulse_rate : Option ℤ
  notes : Option String
deriving DecidableEq

/-- The `db.session.add` + `flush` of the new triage record: it enters
the table with the next id. -/
def insertTriage (db : DB) (t : TriageRow) : DB :=
  { db with triage_records := db.triage_records ++ [t],
            next_triage_id := db.next_triage_id + 1 }

/-- `TriageRecords.post`: requires the seven mandatory fields, builds the
record (firing the nurse, temperature, weight, height, blood-pressure
and pulse-rate validators), flushes to get its id, then looks up the
visit: if it does not exist the transaction is rolled back (the record is
not persisted) and a 404 error is returned; otherwise the visit's
`triage_id` is set to the new record's id, its stage is set to
`waiting_consultation`, and everything is committed. -/
def triageRecords_post (db : DB) (req : TriagePostReq) :
    Except String (DB × TriageRow) :=
  match req.patient_id, req.nurse_id, req.temperature, req.weight,
        req.height, req.blood_pressure, req.visit_id with
  | some pid, some nid, some temp, some w, some h, some bp, some vid =>
    match findUser db nid with
    | none => .error "Nurse ID does not exist"
    | some nurse =>
      if nurse.role != "nurse" then .error "User must have the role nurse"
      else if temp < 20 then .error "Temperature must be realistic"
      else if w ≤ 0 then .error "Weight must be greater than 0"
      else if h ≤ 0 then .error "Height must be greater than 0"
      else if !(isBloodPressureFormat bp) then
        .error "Blood pressure must be in format like 120/80"
      else if (match req.pulse_rate with
               | some pr => decide (pr < 0)
               | none => false) then
        .error "Pulse rate must be non-negative"
      else
        let t : TriageRow :=
          { id := db.next_triage_id, patient_id := pid, nurse_id := nid,
            temperature := temp, weight := w, height := h,
            blood_pressure := bp, pulse_rate := req.pulse_rate,
            notes := req.notes }
        match findVisit db vid with
        | none => .error "Visit not found"
        | some _ =>
          let db2 := updateVisit (insertTriage db t) vid (fun v =>
            { v with triage_id := some t.id, stage := "waiting_consultation" })
          .ok (db2, t)
  | _, _, _, _, _, _, _ => .error "required field missing"

/-! ## C9 and C10: the two always-failing POST routes -/

/-- `total_price`, a keyword the route hands to the `PharmacySale`
constructor, is not a settable attribute (it is a read-only property). -/
theorem total_price_not_settable :
    pharmacySaleSettableAttr "total_price" = false := by decide

/-- `total_cost`, a keyword the route hands to `PharmacyExpense(...)`,
is not a parameter of `PharmacyExpense.__init__`. -/
theorem total_cost_not_accepted :
    pharmacyExpenseAcceptedParam "total_cost" = false := by decide

/-- `POST /pharmacy_sales` returns an error on every request body. -/
theorem pharmacySales_post_isErr (db : DB) (req : PharmacySalePostReq) :
    isErr (pharmacySales_post db req) = true := by
  unfold pharmacySales_post
  rcases req with ⟨o, ph, mi, du, tp⟩
  rcases o with _ | o <;> rcases ph with _ | ph <;> rcases mi with _ | mi <;>
    rcases du with _ | du <;> rcases tp with _ | tp <;> try rfl
  cases hm : findMedicine db mi with
  | none => simp [hm, isErr]
  | some medicine =>
    by_cases h1 : du ≤ 0
    · simp [hm, h1, isErr]
    · by_cases h2 : medicine.stock < du
      · simp [hm, h1, h2, isErr]
      · simp [hm, h1, h2, total_price_not_settable, isErr]

/-- C9: `POST /pharmacy_sales` never succeeds: the route passes a
`total_price` keyword to the `PharmacySale` constructor, whose
`total_price` is a read-only property, so the assignment raises before
commit; every request body gets an error response, no `PharmacySale` row
is created and the medicine is left unchanged (the transaction is rolled
back). -/
theorem pharmacy_sales_post_never_succeeds (db : DB) (req : PharmacySalePostReq) :
    isErr (pharmacySales_post db req) = true ∧
      stateAfter (pharmacySales_post db req) db = db := by
  have h := pharmacySales_post_isErr db req
  refine ⟨h, ?_⟩
  unfold stateAfter
  cases he : pharmacySales_post db req with
  | ok v => rw [he] at h; simp [isErr] at h
  | error e => rfl

/-- `POST /pharmacy_expenses` returns an error on every request body. -/
theorem pharmacyExpenses_post_isErr (db : DB) (req : PharmacyExpensePostReq) :
    isErr (pharmacyExpenses_post db req) = true := by
  unfold pharmacyExpenses_post
  rcases req with ⟨mi, q, tc⟩
  rcases mi with _ | mi <;> rcases q with _ | q <;> rcases tc with _ | tc <;> try rfl
  cases hm : findMedicine db mi with
  | none => simp [hm, isErr]
  | some medicine =>
    by_cases h1 : q ≤ 0
    · simp [hm, h1, isErr]
    · by_cases h2 : tc < 0
      · simp [hm, h1, h2, isErr]
      · simp [hm, h1, h2, total_cost_not_accepted, isErr]

/-- C10: `POST /pharmacy_expenses` never succeeds: the route passes a
`total_cost` keyword to `PharmacyExpense(...)`, but
`PharmacyExpense.__init__` only accepts `medicine`, `quantity_added` and
`discount`, so Python raises `TypeError`; every request body gets an
error response, no `PharmacyExpense` row is created and the medicine's
stock is unchanged (the stock update after the call is never reached). -/
theorem pharmacy_expenses_post_never_succeeds (db : DB) (req : PharmacyExpensePostReq) :
    isErr (pharmacyExpenses_post db req) = true ∧
      stateAfter (pharmacyExpenses_post db req) db = db := by
  have h := pharmacyExpenses_post_isErr db req
  refine ⟨h, ?_⟩
  unfold stateAfter
  cases he : pharmacyExpenses_post db req with
  | ok v => rw [he] at h; simp [isErr] at h
  | error e => rfl

/-! ## C2: stock non-negativity -/

/-- A database state in which all medicines have settled positive data;
medicine 1 has only 1 unit in stock. -/
def dbStock1 : DB :=
  { users := [], test_types := [],
    medicines := [{ id := 1, stock := 1, sold_units := 0,
                    buying_price := 5, selling_price := 10 }],
    visits := [], triage_records := [], test_requests := [],
    prescriptions := [], payments := [], pharmacy_sales := [],
    pharmacy_expenses := [], next_triage_id := 1, next_prescription_id := 1,
    next_payment_id := 1, next_sale_id := 1, next_expense_id := 1 }

/-- A prescription body dispensing 2 units of medicine 1. -/
def reqDispense2 : PrescriptionPostReq :=
  { consultation_id := some 1, pharmacist_id := none, medicine_id := some 1,
    dosage := some "1x3", instructions := none, status := none,
    dispensed_units := some 2 }

/-- Counterexample to C2 as stated: with 1 unit in stock, creating a
prescription that dispenses 2 units succeeds (no error, medicine is
changed) and leaves the stock at -1 < 0: the prescription route has no
stock check. -/
theorem prescription_overdispense_counterexample :
    ((prescriptions_post dbStock1 reqDispense2).toOption.map
      fun r => (findMedicine r.1 1).map Medicine.stock) = some (some (-1)) ∧
      ¬ (0 : ℤ) ≤ -1 := by
  constructor
  · rfl
  · decide

/-- All stocks in the database are non-negative. -/
def medsNonNegB (db : DB) : Bool :=
  db.medicines.all (fun m => decide (0 ≤ m.stock))

theorem medsNonNegB_iff (db : DB) :
    medsNonNegB db = true ↔ ∀ m ∈ db.medicines, 0 ≤ m.stock := by
  simp [medsNonNegB]

/-- In a table with pairwise-distinct ids, a member sharing the id of the
`find?` result is that result. -/
theorem find_eq_of_mem_of_uniq {α : Type} (idOf : α → Nat) (l : List α)
    (k : Nat) (x med : α)
    (hfind : l.find? (fun y => idOf y == k) = some med)
    (hx : x ∈ l) (hid : idOf x = k)
    (huniq : ∀ a ∈ l, ∀ b ∈ l, idOf a = idOf b → a = b) : x = med := by
  have hmem := List.mem_of_find?_eq_some hfind
  have hpred := List.find?_some hfind
  have hkey : idOf med = k := by simpa using hpred
  exact huniq x hx med hmem (by rw [hid, hkey])

/-- Subtracting a checked difference from one medicine keeps all stocks
non-negative (ids assumed pairwise distinct, as for a primary key). -/
theorem medsNonNegB_updateMedicine (db : DB) (mid : Nat) (diff : ℤ)
    (med : Medicine)
    (hfind : findMedicine db mid = some med)
    (huniq : ∀ a ∈ db.medicines, ∀ b ∈ db.medicines, a.id = b.id → a = b)
    (hnn : medsNonNegB db = true)
    (hok : diff ≤ 0 ∨ diff ≤ med.stock) :
    medsNonNegB (updateMedicine db mid (fun m =>
      { m with stock := m.stock - diff,
               sold_units := m.sold_units + diff })) = true := by
  rw [medsNonNegB_iff] at hnn ⊢
  intro m hm
  simp only [updateMedicine] at hm
  rw [List.mem_map] at hm
  obtain ⟨x, hx, hxm⟩ := hm
  by_cases hid : (x.id == mid) = true
  · rw [if_pos hid] at hxm
    have hxs : m.stock = x.stock - diff := by rw [← hxm]
    rcases hok with h | h
    · have := hnn x hx
      omega
    · have hxe : x = med :=
        find_eq_of_mem_of_uniq Medicine.id db.medicines mid x med hfind hx
          (by simpa using hid) huniq
      subst hxe
      omega
  · rw [if_neg hid] at hxm
    rw [← hxm]
    exact hnn x hx

/-- The `dispensed_units` step of the pharmacy sale patch preserves
non-negative stocks: a positive difference is checked against the stock
first. -/
theorem salePatchUnits_preserves (db : DB) (sale : PharmacySaleRow)
    (nu : ℤ) (db1 : DB) (s1 : PharmacySaleRow)
    (huniq : ∀ a ∈ db.medicines, ∀ b ∈ db.medicines, a.id = b.id → a = b)
    (hnn : medsNonNegB db = true)
    (h : salePatchUnits db sale nu = .ok (db1, s1)) :
    medsNonNegB db1 = true := by
  unfold salePatchUnits at h
  by_cases hne : (nu != sale.dispensed_units) = true
  · rw [if_pos hne] at h
    cases hfm : findMedicine db sale.medicine_id with
    | none => simp only [hfm] at h; exact absurd h (by simp)
    | some med =>
      simp only [hfm] at h
      by_cases hovr : 0 < nu - sale.dispensed_units ∧
          med.stock < nu - sale.dispensed_units
      · rw [if_pos hovr] at h; exact absurd h (by simp)
      · rw [if_neg hovr] at h
        simp only [Except.ok.injEq, Prod.mk.injEq] at h
        obtain ⟨h1, -⟩ := h
        rw [← h1]
        exact medsNonNegB_updateMedicine db sale.medicine_id
          (nu - sale.dispensed_units) med hfm huniq hnn (by omega)
  · rw [if_neg hne] at h
    simp only [Except.ok.injEq, Prod.mk.injEq] at h
    obtain ⟨h1, -⟩ := h
    rw [← h1]
    exact hnn

/-- C2 (amended): of the four dispensing operations, only the pharmacy
sale routes check the stock, and they do preserve non-negative stocks:
`PATCH /pharmacy_sales/<id>` rejects an increase beyond the stock, and
`POST /pharmacy_sales` always fails and changes nothing.  The
prescription routes perform no stock check and can drive the stock
negative (see the counterexample). -/
theorem pharmacy_sale_ops_preserve_stock_nonneg (db : DB) (sid : Nat)
    (body : PharmacySalePatchReq) (req : PharmacySalePostReq)
    (huniq : ∀ a ∈ db.medicines, ∀ b ∈ db.medicines, a.id = b.id → a = b)
    (hnn : medsNonNegB db = true) :
    medsNonNegB (stateAfter (pharmacySaleByID_patch db sid body) db) = true ∧
      medsNonNegB (stateAfter (pharmacySales_post db req) db) = true := by
  constructor
  · cases hp : pharmacySaleByID_patch db sid body with
    | error e => simpa [stateAfter] using hnn
    | ok v =>
      obtain ⟨db2, s2⟩ := v
      simp only [stateAfter]
      unfold pharmacySaleByID_patch at hp
      cases hfs : findSale db sid with
      | none => simp only [hfs] at hp; exact absurd hp (by simp)
      | some sale =>
        simp only [hfs] at hp
        cases hsu : salePatchUnits db sale
            (body.dispensed_units.getD sale.dispensed_units) with
        | error e => simp only [hsu] at hp; exact absurd hp (by simp)
        | ok w =>
          obtain ⟨db1, s1⟩ := w
          have hdb1 := salePatchUnits_preserves db sale
            (body.dispensed_units.getD sale.dispensed_units) db1 s1 huniq hnn hsu
          simp only [hsu] at hp
          cases htp : body.total_price with
          | some t =>
            simp only [htp, total_price_not_settable, Bool.false_eq_true,
              if_false] at hp
            exact absurd hp (by simp)
          | none =>
            simp only [htp] at hp
            cases hm2 : body.medicine_id with
            | some mid2 =>
              simp only [hm2] at hp
              cases hfm2 : findMedicine db1 mid2 with
              | none => simp only [hfm2] at hp; exact absurd hp (by simp)
              | some med2 =>
                simp only [hfm2, Except.ok.injEq, Prod.mk.injEq] at hp
                obtain ⟨h1, -⟩ := hp
                rw [← h1]
                exact hdb1
            | none =>
              simp only [hm2, Except.ok.injEq, Prod.mk.injEq] at hp
              obtain ⟨h1, -⟩ := hp
              rw [← h1]
              exact hdb1
  · have h := pharmacySales_post_isErr db req
    cases he : pharmacySales_post db req with
    | ok v => rw [he] at h; simp [isErr] at h
    | error e => simpa [stateAfter] using hnn

/-- A pharmacy sale of 1 unit of medicine 1, for the C2 witness. -/
def dbStockSale : DB :=
  { dbStock1 with
    pharmacy_sales := [{ id := 1, otc_sale_id := 1, pharmacist_id := 4,
                         medicine_id := 1, dispensed_units := 1 }],
    next_sale_id := 2 }

/-- Witness for C2 (amended): on a concrete state with 1 unit in stock,
a patch raising the sale to 3 units and any sale post both leave all
stocks non-negative (the patch is rejected for insufficient stock). -/
theorem pharmacy_sale_ops_preserve_stock_nonneg_witness :
    medsNonNegB (stateAfter (pharmacySaleByID_patch dbStockSale 1
      { dispensed_units := some 3, total_price := none,
        pharmacist_id := none, medicine_id := none }) dbStockSale) = true ∧
      medsNonNegB (stateAfter (pharmacySales_post dbStockSale
        { otc_sale_id := some 1, pharmacist_id := some 4, medicine_id := some 1,
          dispensed_units := some 1, total_price := some 10 }) dbStockSale) = true :=
  pharmacy_sale_ops_preserve_stock_nonneg dbStockSale 1
    { dispensed_units := some 3, total_price := none,
      pharmacist_id := none, medicine_id := none }
    { otc_sale_id := some 1, pharmacist_id := some 4, medicine_id := some 1,
      dispensed_units := some 1, total_price := some 10 }
    (by decide) (by decide)

/-! ## C3: payment-target exclusivity -/

/-- A database holding one payment tied to visit 1. -/
def dbPayment : DB :=
  { dbStock1 with
    payments := [{ id := 1, visit_id := some 1, otc_sale_id := none,
                   amount := 100, service_type := "visit",
                   payment_method := "cash", mpesa_receipt := none,
                   receptionist_id := 1 }],
    next_payment_id := 2 }

/-- A patch body that only sets `otc_sale_id` to 5. -/
def reqSetOtc : PaymentPatchReq :=
  { visit_id := none, otc_sale_id := some (some 5), amount := none,
    service_type := none, payment_method := none, mpesa_receipt := none,
    receptionist_id := none }

/-- Counterexample to C3 as stated: patching a visit-linked payment with
`otc_sale_id = 5` succeeds and leaves both `visit_id` and `otc_sale_id`
set — `PaymentByID.patch` applies every key without re-checking the
exclusivity rule. -/
theorem payment_patch_breaks_exclusivity :
    ((paymentByID_patch dbPayment 1 reqSetOtc).toOption.map
      fun r => (r.2.visit_id, r.2.otc_sale_id)) = some (some 1, some 5) := by
  rfl

/-- On success, the created payment references exactly one of a visit and
an OTC sale; on error the check is vacuous. -/
def createdExclusive (r : Except String (DB × PaymentRow)) : Bool :=
  match r with
  | .ok (_, p) =>
    (p.visit_id.isSome && p.otc_sale_id.isNone) ||
      (p.visit_id.isNone && p.otc_sale_id.isSome)
  | .error _ => true

/-- Inversion of a successful `POST /payments` (for ids that are positive
when present, as primary keys are): exactly one reference is set. -/
theorem payments_post_ok_exclusive {db : DB} {req : PaymentPostReq}
    {db2 : DB} {p : PaymentRow}
    (h : payments_post db req = .ok (db2, p))
    (hv : ∀ v, req.visit_id = some v → 0 < v)
    (ho : ∀ v, req.otc_sale_id = some v → 0 < v) :
    (p.visit_id ≠ none ∧ p.otc_sale_id = none) ∨
      (p.visit_id = none ∧ p.otc_sale_id ≠ none) := by
  unfold payments_post at h
  by_cases h1 : (!truthyId req.visit_id && !truthyId req.otc_sale_id) = true
  · rw [if_pos h1] at h; exact absurd h (by simp)
  · rw [if_neg h1] at h
    by_cases h2 : (truthyId req.visit_id && truthyId req.otc_sale_id) = true
    · rw [if_pos h2] at h; exact absurd h (by simp)
    · rw [if_neg h2] at h
      have hfields : p.visit_id = req.visit_id ∧ p.otc_sale_id = req.otc_sale_id := by
        rcases hr : req.receptionist_id with _ | rid <;>
          rcases ha : req.amount with _ | amount <;>
          rcases hs : req.service_type with _ | st <;>
          rcases hpm : req.payment_method with _ | pm <;>
          simp only [hr, ha, hs, hpm] at h <;>
          try exact absurd h (by simp)
        cases hva : validate_amount amount with
        | error e => simp only [hva] at h; exact absurd h (by simp)
        | ok x =>
          simp only [hva] at h
          cases hvm : validate_payment_method pm with
          | error e => simp only [hvm] at h; exact absurd h (by simp)
          | ok y =>
            simp only [hvm] at h
            cases hvr : validate_receptionist_id db rid with
            | error e => simp only [hvr] at h; exact absurd h (by simp)
            | ok z =>
              simp only [hvr, Except.ok.injEq, Prod.mk.injEq] at h
              obtain ⟨-, h3⟩ := h
              rw [← h3]
              exact ⟨rfl, rfl⟩
      obtain ⟨hpv, hpo⟩ := hfields
      simp only [Bool.and_eq_true, Bool.not_eq_true] at h1 h2
      cases hb : truthyId req.visit_id with
      | false =>
        -- visit not truthy: by positivity it is absent; otc must be truthy
        have hvnone : req.visit_id = none := by
          cases hvv : req.visit_id with
          | none => rfl
          | some v =>
            have := hv v hvv
            rw [hvv] at hb
            simp [truthyId] at hb
            omega
        have honot : truthyId req.otc_sale_id = true := by
          cases hoc : truthyId req.otc_sale_id with
          | true => rfl
          | false => exact absurd ⟨by simp [hb], by simp [hoc]⟩ h1
        have honone : req.otc_sale_id ≠ none := by
          intro hx
          rw [hx] at honot
          simp [truthyId] at honot
        right
        exact ⟨by rw [hpv, hvnone], by rw [hpo]; exact honone⟩
      | true =>
        -- visit truthy: otc must not be truthy, hence absent by positivity
        have hotc : truthyId req.otc_sale_id = false := by
          cases hoc : truthyId req.otc_sale_id with
          | false => rfl
          | true => exact absurd ⟨hb, hoc⟩ h2
        have honone : req.otc_sale_id = none := by
          cases hoo : req.otc_sale_id with
          | none => rfl
          | some o =>
            have := ho o hoo
            rw [hoo] at hotc
            simp [truthyId] at hotc
            omega
        have hvsome : req.visit_id ≠ none := by
          intro hx
          rw [hx] at hb
          simp [truthyId] at hb
        left
        exact ⟨by rw [hpv]; exact hvsome, by rw [hpo, honone]⟩

/-- C3 (amended): creation enforces the exclusivity rule — a `POST
/payments` body with neither or both references is rejected, and a
successful creation stores exactly one of `visit_id`/`otc_sale_id`
(ids being positive when present, as primary keys are).  `PATCH
/payments/<id>`, however, rewrites the fields unchecked and can break
the rule (see the counterexample). -/
theorem payments_post_exclusive (db : DB) (req : PaymentPostReq)
    (hv : ∀ v, req.visit_id = some v → 0 < v)
    (ho : ∀ v, req.otc_sale_id = some v → 0 < v) :
    createdExclusive (payments_post db req) = true ∧
      (if req.visit_id = none ∧ req.otc_sale_id = none then
        isErr (payments_post db req) = true else True) ∧
      (if req.visit_id ≠ none ∧ req.otc_sale_id ≠ none then
        isErr (payments_post db req) = true else True) := by
  refine ⟨?_, ?_, ?_⟩
  · cases hpp : payments_post db req with
    | error e => rfl
    | ok v =>
      obtain ⟨db2, p⟩ := v
      rcases payments_post_ok_exclusive hpp hv ho with ⟨h1, h2⟩ | ⟨h1, h2⟩ <;>
        simp [createdExclusive, Option.isSome_iff_ne_none, h1, h2]
  · by_cases hc : req.visit_id = none ∧ req.otc_sale_id = none
    · rw [if_pos hc]
      obtain ⟨hv0, ho0⟩ := hc
      simp [payments_post, hv0, ho0, truthyId, isErr]
    · rw [if_neg hc]
      trivial
  · by_cases hc : req.visit_id ≠ none ∧ req.otc_sale_id ≠ none
    · rw [if_pos hc]
      obtain ⟨hv0, ho0⟩ := hc
      obtain ⟨v, hvv⟩ := Option.ne_none_iff_exists'.mp hv0
      obtain ⟨o, hoo⟩ := Option.ne_none_iff_exists'.mp ho0
      have hvpos := hv v hvv
      have hopos := ho o hoo
      have htv : truthyId req.visit_id = true := by
        simp [hvv, truthyId]
        omega
      have hto : truthyId req.otc_sale_id = true := by
        simp [hoo, truthyId]
        omega
      simp [payments_post, htv, hto, isErr]
    · rw [if_neg hc]
      trivial

/-- A database with one receptionist user, for the payment witnesses. -/
def dbRecep : DB :=
  { dbStock1 with users := [{ id := 1, role := "receptionist" }] }

/-- A payment body referencing only visit 1. -/
def reqPayVisit : PaymentPostReq :=
  { visit_id := some 1, otc_sale_id := none, receptionist_id := some 1,
    amount := some 100, service_type := some "visit",
    payment_method := some "cash", mpesa_receipt := none }

/-- Witness for C3 (amended): a concrete body paying against visit 1
creates a payment with exactly one reference set, and the degenerate
bodies are rejected. -/
theorem payments_post_exclusive_witness :
    createdExclusive (payments_post dbRecep reqPayVisit) = true ∧
      (if reqPayVisit.visit_id = none ∧ reqPayVisit.otc_sale_id = none then
        isErr (payments_post dbRecep reqPayVisit) = true else True) ∧
      (if reqPayVisit.visit_id ≠ none ∧ reqPayVisit.otc_sale_id ≠ none then
        isErr (payments_post dbRecep reqPayVisit) = true else True) :=
  payments_post_exclusive dbRecep reqPayVisit
    (by intro v hvv; simp [reqPayVisit] at hvv; omega)
    (by intro v hvv; simp [reqPayVisit] at hvv)

/-! ## C4: prescription dispensing is reversible -/

theorem findMedicine_update (db : DB) (mid : Nat) (f : Medicine → Medicine)
    (hf : ∀ x, (f x).id = x.id) :
    findMedicine (updateMedicine db mid f) mid = (findMedicine db mid).map f := by
  unfold findMedicine updateMedicine
  exact find_map_update Medicine.id db.medicines mid f hf

theorem findVisit_update (db : DB) (vid : Nat) (f : VisitRow → VisitRow)
    (hf : ∀ x, (f x).id = x.id) :
    findVisit (updateVisit db vid f) vid = (findVisit db vid).map f := by
  unfold findVisit updateVisit
  exact find_map_update VisitRow.id db.visits vid f hf

/-- C4: dispensing through a prescription is reversible.  A successful
`POST /prescriptions` of `d > 0` units moves the medicine from stock `s`
and `sold_units` `u` to `s - d` and `u + d`; patching the new
prescription's `dispensed_units` to `d2` leaves the medicine at `s - d2`
and `u + d2` (the change is the difference `d2 - d`); deleting the new
prescription restores the medicine exactly and removes the row. -/
theorem prescription_dispense_reversible
    (db db1 db2 db3 : DB) (req : PrescriptionPostReq)
    (p p2 p3 : PrescriptionRow) (cid mid : Nat) (dosage : String)
    (d d2 : ℤ) (m : Medicine)
    (hcid : req.consultation_id = some cid)
    (hmid : req.medicine_id = some mid)
    (hdos : req.dosage = some dosage)
    (hd : req.dispensed_units = some d)
    (hdpos : 0 < d)
    (hst : prescriptionStatusValid (req.status.getD "pending") = true)
    (hph : validate_pharmacist db req.pharmacist_id = .ok req.pharmacist_id)
    (hm : findMedicine db mid = some m)
    (hfresh : findPrescription db db.next_prescription_id = none)
    (hpost : prescriptions_post db req = .ok (db1, p))
    (hpatch : prescriptionByID_patch db1 p.id
      { pharmacist_id := none, dosage := none, instructions := none,
        status := none, dispensed_units := some d2 } = .ok (db2, p2))
    (hdel : prescriptionByID_delete db1 p.id = .ok (db3, p3)) :
    findMedicine db1 mid =
        some { m with stock := m.stock - d, sold_units := m.sold_units + d } ∧
      findMedicine db2 mid =
        some { m with stock := m.stock - d2, sold_units := m.sold_units + d2 } ∧
      findMedicine db3 mid = some m ∧
      findPrescription db3 p.id = none := by
  have hcomp : prescriptions_post db req =
      .ok ({ updateMedicine db mid (fun mm =>
               { mm with stock := mm.stock - d, sold_units := mm.sold_units + d }) with
             prescriptions := db.prescriptions ++
               [⟨db.next_prescription_id, cid, req.pharmacist_id, mid, dosage,
                 req.instructions, req.status.getD "pending", some d⟩],
             next_prescription_id := db.next_prescription_id + 1 },
           ⟨db.next_prescription_id, cid, req.pharmacist_id, mid, dosage,
            req.instructions, req.status.getD "pending", some d⟩) := by
    simp only [prescriptions_post, hcid, hmid, hdos, hm, hd, Option.getD_some,
      hst, Bool.not_true, Bool.false_eq_true, if_false, hph, hdpos, if_pos]
    rfl
  rw [hcomp] at hpost
  simp only [Except.ok.injEq, Prod.mk.injEq] at hpost
  obtain ⟨hdb1, hpp⟩ := hpost
  subst hpp
  obtain ⟨mid0, ms, mu, mb, msp⟩ := m
  have hA : findMedicine db1 mid =
      some ⟨mid0, ms - d, mu + d, mb, msp⟩ := by
    rw [← hdb1]
    show findMedicine (updateMedicine db mid (fun mm =>
      { mm with stock := mm.stock - d, sold_units := mm.sold_units + d })) mid = _
    rw [findMedicine_update db mid (fun mm =>
      { mm with stock := mm.stock - d, sold_units := mm.sold_units + d })
      (fun x => rfl), hm]
    rfl
  have hfresh' : db.prescriptions.find?
      (fun q => q.id == db.next_prescription_id) = none := hfresh
  have hfp : findPrescription db1 db.next_prescription_id =
      some ⟨db.next_prescription_id, cid, req.pharmacist_id, mid, dosage,
            req.instructions, req.status.getD "pending", some d⟩ := by
    rw [← hdb1]
    show (db.prescriptions ++
      [({ id := db.next_prescription_id, consultation_id := cid,
          pharmacist_id := req.pharmacist_id, medicine_id := mid,
          dosage := dosage, instructions := req.instructions,
          status := req.status.getD "pending",
          dispensed_units := some d } : PrescriptionRow)]).find?
      (fun q => q.id == db.next_prescription_id) = _
    rw [find_append_of_none _ _ _ hfresh']
    simp [List.find?]
  have hph1 : validate_pharmacist db1 req.pharmacist_id =
      .ok req.pharmacist_id := by
    rw [← hdb1]
    exact hph
  refine ⟨hA, ?_, ?_, ?_⟩
  · -- the patch leaves the medicine at s - d2 / u + d2
    unfold prescriptionByID_patch at hpatch
    simp only [hfp, Option.or, Option.getD_some, Option.getD_none, hph1, hst,
      Bool.not_true, Bool.false_eq_true, if_false] at hpatch
    by_cases hne : (d2 != d) = true
    · rw [if_pos hne] at hpatch
      simp only [hA] at hpatch
      simp only [Except.ok.injEq, Prod.mk.injEq] at hpatch
      obtain ⟨hdb2, -⟩ := hpatch
      rw [← hdb2]
      show findMedicine (updateMedicine db1 mid (fun mm =>
        { mm with stock := mm.stock - (d2 - d),
                  sold_units := mm.sold_units + (d2 - d) })) mid = _
      rw [findMedicine_update db1 mid (fun mm =>
        { mm with stock := mm.stock - (d2 - d),
                  sold_units := mm.sold_units + (d2 - d) }) (fun x => rfl), hA]
      simp only [Option.map_some', Option.some.injEq, Medicine.mk.injEq]
      exact ⟨trivial, by ring, by ring, trivial, trivial⟩
    · rw [if_neg hne] at hpatch
      simp only [Except.ok.injEq, Prod.mk.injEq] at hpatch
      obtain ⟨hdb2, -⟩ := hpatch
      rw [← hdb2]
      have hd2 : d2 = d := by
        simpa using hne
      subst hd2
      exact hA
  · -- the delete restores the medicine
    unfold prescriptionByID_delete at hdel
    simp only [hfp] at hdel
    have hdz : (d != 0) = true := by
      simp only [bne_iff_ne, ne_eq]
      omega
    rw [if_pos hdz] at hdel
    simp only [Except.ok.injEq, Prod.mk.injEq] at hdel
    obtain ⟨hdb3, -⟩ := hdel
    rw [← hdb3]
    show findMedicine (updateMedicine db1 mid (fun mm =>
      { mm with stock := mm.stock + d, sold_units := mm.sold_units - d })) mid = _
    rw [findMedicine_update db1 mid (fun mm =>
      { mm with stock := mm.stock + d, sold_units := mm.sold_units - d })
      (fun x => rfl), hA]
    simp only [Option.map_some', Option.some.injEq, Medicine.mk.injEq]
    exact ⟨trivial, by ring, by ring, trivial, trivial⟩
  · -- the prescription row is gone
    unfold prescriptionByID_delete at hdel
    simp only [hfp] at hdel
    have hdz : (d != 0) = true := by
      simp only [bne_iff_ne, ne_eq]
      omega
    rw [if_pos hdz] at hdel
    simp only [Except.ok.injEq, Prod.mk.injEq] at hdel
    obtain ⟨hdb3, -⟩ := hdel
    rw [← hdb3]
    show ((updateMedicine db1 mid (fun mm =>
      { mm with stock := mm.stock + d,
                sold_units := mm.sold_units - d })).prescriptions.filter
      (fun q => q.id != db.next_prescription_id)).find?
      (fun q => q.id == db.next_prescription_id) = none
    exact find_filter_ne PrescriptionRow.id _ db.next_prescription_id

/-- The single medicine of `dbStock1`. -/
def medStock1 : Medicine :=
  { id := 1, stock := 1, sold_units := 0, buying_price := 5, selling_price := 10 }

/-- A prescription body dispensing 1 unit of medicine 1. -/
def reqDispense1 : PrescriptionPostReq :=
  { consultation_id := some 1, pharmacist_id := none, medicine_id := some 1,
    dosage := some "1x3", instructions := none, status := none,
    dispensed_units := some 1 }

/-- The row created by posting `reqDispense1` against `dbStock1`. -/
def rowP1 : PrescriptionRow :=
  { id := 1, consultation_id := 1, pharmacist_id := none, medicine_id := 1,
    dosage := "1x3", instructions := none, status := "pending",
    dispensed_units := some 1 }

/-- A patch body that only changes `dispensed_units` to 2. -/
def unitsPatch2 : PrescriptionPatchReq :=
  { pharmacist_id := none, dosage := none, instructions := none,
    status := none, dispensed_units := some 2 }

def dbP1 : DB := stateAfter (prescriptions_post dbStock1 reqDispense1) dbStock1

def dbP2 : DB := stateAfter (prescriptionByID_patch dbP1 1 unitsPatch2) dbP1

def rowP2 : PrescriptionRow := { rowP1 with dispensed_units := some 2 }

def dbP3 : DB := stateAfter (prescriptionByID_delete dbP1 1) dbP1

/-- Witness for C4: dispensing 1 of the 1 unit in stock, then patching to
2 units, and independently deleting, produce exactly the stated stock and
`sold_units` values on medicine 1. -/
theorem prescription_dispense_reversible_witness :
    findMedicine dbP1 1 =
        some { medStock1 with
               stock := medStock1.stock - 1,
               sold_units := medStock1.sold_units + 1 } ∧
      findMedicine dbP2 1 =
        some { medStock1 with
               stock := medStock1.stock - 2,
               sold_units := medStock1.sold_units + 2 } ∧
      findMedicine dbP3 1 = some medStock1 ∧
      findPrescription dbP3 rowP1.id = none :=
  prescription_dispense_reversible dbStock1 dbP1 dbP2 dbP3 reqDispense1
    rowP1 rowP2 rowP1 1 1 "1x3" 1 2 medStock1
    rfl rfl rfl rfl (by decide) (by decide) rfl (by decide) rfl
    rfl rfl rfl

/-! ## C7: posting a triage record links the visit -/

theorem findVisit_insertTriage (db : DB) (t : TriageRow) (vid : Nat) :
    findVisit (insertTriage db t) vid = findVisit db vid := rfl

theorem triage_mem_insertTriage (db : DB) (t : TriageRow) :
    t ∈ (insertTriage db t).triage_records := by
  simp [insertTriage]

/-- Inversion of a successful `POST /triage_records`: the body named an
existing visit and the new state is that visit updated to point at the
flushed record, which carries the next id. -/
theorem triageRecords_post_ok_inv {db : DB} {req : TriagePostReq}
    {db2 : DB} {t : TriageRow}
    (h : triageRecords_post db req = .ok (db2, t)) :
    ∃ vid v0, req.visit_id = some vid ∧ findVisit db vid = some v0 ∧
      db2 = updateVisit (insertTriage db t) vid (fun v =>
        { v with triage_id := some t.id, stage := "waiting_consultation" }) ∧
      t.id = db.next_triage_id := by
  unfold triageRecords_post at h
  rcases hpr : req.patient_id with _ | pid <;>
    rcases hnr : req.nurse_id with _ | nid <;>
    rcases htm : req.temperature with _ | temp <;>
    rcases hwt : req.weight with _ | w0 <;>
    rcases hht : req.height with _ | h0 <;>
    rcases hbp : req.blood_pressure with _ | bp <;>
    rcases hvv : req.visit_id with _ | vid <;>
    simp only [hpr, hnr, htm, hwt, hht, hbp, hvv] at h <;>
    try exact Except.noConfusion h
  cases hu : findUser db nid with
  | none => simp only [hu] at h; exact absurd h (by simp)
  | some nurse =>
    simp only [hu] at h
    by_cases h1 : (nurse.role != "nurse") = true
    · rw [if_pos h1] at h; exact absurd h (by simp)
    · rw [if_neg h1] at h
      by_cases h2 : temp < 20
      · rw [if_pos h2] at h; exact absurd h (by simp)
      · rw [if_neg h2] at h
        by_cases h3 : w0 ≤ 0
        · rw [if_pos h3] at h; exact absurd h (by simp)
        · rw [if_neg h3] at h
          by_cases h4 : h0 ≤ 0
          · rw [if_pos h4] at h; exact absurd h (by simp)
          · rw [if_neg h4] at h
            by_cases h5 : (!(isBloodPressureFormat bp)) = true
            · rw [if_pos h5] at h; exact absurd h (by simp)
            · rw [if_neg h5] at h
              by_cases h6 : (match req.pulse_rate with
                  | some pr => decide (pr < 0)
                  | none => false) = true
              · rw [if_pos h6] at h; exact absurd h (by simp)
              · rw [if_neg h6] at h
                cases hfv : findVisit db vid with
                | none => simp only [hfv] at h; exact absurd h (by simp)
                | some v0 =>
                  simp only [hfv, Except.ok.injEq, Prod.mk.injEq] at h
                  obtain ⟨hdb2, htt⟩ := h
                  refine ⟨vid, v0, rfl, hfv, ?_, ?_⟩
                  · rw [← hdb2, ← htt]
                  · rw [← htt]

/-- The success check of C7: on a successful post the visit named by the
body points at the new triage record, its stage is
`waiting_consultation`, and the record is in the table; on an error
response there is nothing to check. -/
def triageLinksOk (r : Except String (DB × TriageRow)) (vid : Nat) : Bool :=
  match r with
  | .ok (db2, t) =>
    (match findVisit db2 vid with
     | some v => (v.triage_id == some t.id) && (v.stage == "waiting_consultation")
     | none => false) && decide (t ∈ db2.triage_records)
  | .error _ => true

/-- C7: a successful `POST /triage_records` for visit `vid` persists the
new record, sets the visit's `triage_id` to the record's id and its
stage to `waiting_consultation`; and when the referenced visit does not
exist the request fails (so, the transaction being rolled back, no
triage record is persisted). -/
theorem triage_post_links_visit (db : DB) (req : TriagePostReq) (vid : Nat)
    (hvid : req.visit_id = some vid) :
    triageLinksOk (triageRecords_post db req) vid = true ∧
      (if findVisit db vid = none then
        isErr (triageRecords_post db req) = true else True) := by
  constructor
  · cases hr : triageRecords_post db req with
    | error e => rfl
    | ok w =>
      obtain ⟨db2, t⟩ := w
      obtain ⟨vid2, v0, hvv2, hfv2, hdb2, -⟩ := triageRecords_post_ok_inv hr
      rw [hvid] at hvv2
      injection hvv2 with hvv2
      subst hvv2
      simp only [triageLinksOk]
      rw [hdb2]
      rw [findVisit_update (insertTriage db t) vid (fun v =>
        { v with triage_id := some t.id,
                 stage := "waiting_consultation" }) (fun x => rfl)]
      rw [findVisit_insertTriage, hfv2]
      simp only [Option.map_some']
      have hmem : t ∈ (updateVisit (insertTriage db t) vid (fun v =>
          { v with triage_id := some t.id,
                   stage := "waiting_consultation" })).triage_records :=
        triage_mem_insertTriage db t
      simp [hmem]
  · by_cases hfv : findVisit db vid = none
    · rw [if_pos hfv]
      cases hr : triageRecords_post db req with
      | error e => rfl
      | ok w =>
        obtain ⟨db2, t⟩ := w
        obtain ⟨vid2, v0, hvv2, hfv2, -, -⟩ := triageRecords_post_ok_inv hr
        rw [hvid] at hvv2
        injection hvv2 with hvv2
        subst hvv2
        rw [hfv] at hfv2
        exact absurd hfv2 (by simp)
    · rw [if_neg hfv]
      trivial

/-- A database with a nurse (user 2) and visit 1 at reception. -/
def dbTriage : DB :=
  { dbStock1 with
    users := [{ id := 2, role := "nurse" }],
    visits := [{ id := 1, patient_id := 7, triage_id := none,
                 consultation_id := none, stage := "reception" }] }

/-- A full triage body for visit 1, taken by nurse 2. -/
def reqTriage : TriagePostReq :=
  { patient_id := some 7, nurse_id := some 2, temperature := some 37,
    weight := some 70, height := some 170, blood_pressure := some "120/80",
    visit_id := some 1, pulse_rate := some 72, notes := none }

/-- Witness for C7: posting `reqTriage` against `dbTriage` succeeds and
links visit 1 to the new record. -/
theorem triage_post_links_visit_witness :
    triageLinksOk (triageRecords_post dbTriage reqTriage) 1 = true ∧
      (if findVisit dbTriage 1 = none then
        isErr (triageRecords_post dbTriage reqTriage) = true else True) :=
  triage_post_links_visit dbTriage reqTriage 1 rfl
